import Mathlib

/-!
Shallow embedding of the SecureVault frontend's upload coordinator
(the `UploadButton` component: `uploadFile` / `startRealUpload`) and of
the preview resolver (the `PreviewModal` component: `loadFilePreview`
and its render-side mime classification), together with theorems that
check the specification's claims against these embeddings.

Machine integers of the source are modelled as `Nat`/`Int`; JavaScript
string truthiness (`""` and `null` are falsy) is modelled explicitly;
the asynchronous resolver is modelled as a small-step state machine
whose steps are the synchronous prologue of `loadFilePreview`, the
settlement of its fetch, and the cleanup run on close/unmount.
-/

/-- JavaScript truthiness of a nullable string: `null` and `""` are falsy. -/
def strTruthy : Option String → Bool
  | none => false
  | some s => s != ""

/-! ## Upload coordinator (`UploadButton`) -/

inductive UploadStatus
  | uploading
  | completed
  | error
deriving DecidableEq

/-- The `UploadProgressItem` interface of the source. -/
structure UploadProgressItem where
  id : String
  name : String
  progress : Int
  size : Nat
  status : UploadStatus
deriving DecidableEq

/-- One functional `setUploads(prev => prev.map(u => u.id === uploadId ? f u : u))`
update: apply `f` to the tasks whose id matches, leave the rest alone. -/
def updTask (uploadId : String) (f : UploadProgressItem → UploadProgressItem)
    (uploads : List UploadProgressItem) : List UploadProgressItem :=
  uploads.map fun u => if u.id = uploadId then f u else u

/-- `{ ...upload, status: 'error' }` on the matching task. -/
def setUploadError (uploadId : String) : List UploadProgressItem → List UploadProgressItem :=
  updTask uploadId fun u => { u with status := .error }

/-- `{ ...upload, progress }` on the matching task. -/
def setUploadProgress (uploadId : String) (p : Int) :
    List UploadProgressItem → List UploadProgressItem :=
  updTask uploadId fun u => { u with progress := p }

/-- `{ ...upload, progress: 100, status: 'completed' }` on the matching task. -/
def setUploadCompleted (uploadId : String) :
    List UploadProgressItem → List UploadProgressItem :=
  updTask uploadId fun u => { u with progress := 100, status := .completed }

/-- `Math.round` on a non-negative rational: floor of the value plus one half. -/
def jsRound (q : ℚ) : ℤ := Int.floor (q + 1/2)

/-- `Math.round((event.loaded / event.total) * 100)` from the
`xhr.upload.onprogress` handler. -/
def progressOf (loaded total : Nat) : ℤ :=
  jsRound ((loaded : ℚ) / (total : ℚ) * 100)

/-- Requests the coordinator can issue for one file: the multipart
`POST {base}/files` and the follow-up `PATCH {base}/files/{id}/move`. -/
inductive UploadRequest
  | post (tags : Option String)
  | move (fileId : String) (folderId : String)
deriving DecidableEq

/-- How the upload transport (the `XMLHttpRequest` promise) settles. -/
inductive TransportOutcome
  | ok (fileId : Option String)
  | badJson
  | httpFail (msg : String)
  | netError
  | timedOut
deriving DecidableEq

/-- `xhr.timeout = 60000` from `uploadFile`. -/
def uploadTimeoutMs : Nat := 60000

/-- Settlement of the upload transport: the server's own settlement wins
only if it arrives before the configured `xhr.timeout`; otherwise
`ontimeout` fires and the promise rejects with the timeout error. -/
def settleUpload (serverArrival : Option Nat) (server : TransportOutcome) :
    TransportOutcome :=
  match serverArrival with
  | some t => if t < uploadTimeoutMs then server else .timedOut
  | none => .timedOut

/-- Rejection message carried by each failing transport settlement. -/
def transportErrMsg : TransportOutcome → Option String
  | .ok _ => none
  | .badJson => some "Invalid JSON response"
  | .httpFail msg => some msg
  | .netError => some "Network error during upload"
  | .timedOut => some "Upload timeout"

/-- Toasts surfaced to the caller by `addToast`. -/
inductive Toast
  | ok (msg : String)
  | err (msg : String)
deriving DecidableEq

/-- Result of one `uploadFile` run: the final task list, the network
requests issued, and the toasts surfaced to the caller. -/
structure UploadRun where
  uploads : List UploadProgressItem
  requests : List UploadRequest
  toasts : List Toast
deriving DecidableEq

/-- The `uploadFile` callback of `UploadButton`, for one enqueued file:
no credential errors the task with no request; otherwise the multipart
POST is issued, a success marks the task completed at 100 and, when a
destination folder and a returned file id are present, issues the move
call whose failure is thrown into the shared catch (flipping the task
to error); any transport failure errors the task. -/
def uploadFile (token : Option String) (folderId : Option String)
    (tagsTrimmed : String) (uploadId : String) (fileName : String)
    (outcome : TransportOutcome) (moveOk : Bool) (moveErrMsg : String)
    (uploads : List UploadProgressItem) : UploadRun :=
  if !(strTruthy token) then
    { uploads := setUploadError uploadId uploads
      requests := []
      toasts := [.err "Authentication required for file upload"] }
  else
    let postReq : UploadRequest :=
      .post (if tagsTrimmed != "" then some tagsTrimmed else none)
    match outcome with
    | .ok fid =>
        let uploads1 := setUploadCompleted uploadId uploads
        if !(strTruthy folderId) || !(strTruthy fid) then
          { uploads := uploads1
            requests := [postReq]
            toasts := [.ok ("File \"" ++ fileName ++ "\" uploaded successfully!")] }
        else
          let moveReq := UploadRequest.move (fid.getD "") (folderId.getD "")
          if moveOk then
            { uploads := uploads1
              requests := [postReq, moveReq]
              toasts := [.ok ("File \"" ++ fileName ++ "\" uploaded successfully!")] }
          else
            { uploads := setUploadError uploadId uploads1
              requests := [postReq, moveReq]
              toasts := [.err ("Failed to upload \"" ++ fileName ++
                "\": Failed to move file to folder: " ++ moveErrMsg)] }
    | o =>
        { uploads := setUploadError uploadId uploads
          requests := [postReq]
          toasts := [.err ("Failed to upload \"" ++ fileName ++ "\": " ++
            ((transportErrMsg o).getD "Unknown error"))] }

/-- A local file handed to the coordinator. -/
structure LocalFile where
  name : String
  size : Nat
deriving DecidableEq

/-- The initial task created for one enqueued file. -/
def newUploadItem (uploadId : String) (f : LocalFile) : UploadProgressItem :=
  { id := uploadId, name := f.name, progress := 0, size := f.size,
    status := .uploading }

/-- The `startRealUpload` loop: append one fresh `uploading` task per
file, ids drawn from the generator. -/
def startRealUpload (gen : Nat → String) (k : Nat) (files : List LocalFile)
    (uploads : List UploadProgressItem) : List UploadProgressItem :=
  match files with
  | [] => uploads
  | f :: rest => startRealUpload gen (k + 1) rest (uploads ++ [newUploadItem (gen k) f])

/-! ## Preview resolver (`PreviewModal`) -/

/-- The nested `share_link` object of a file descriptor. -/
structure ShareLink where
  token : String
  is_active : Bool
deriving DecidableEq

/-- The slice of the `FileItem` descriptor the resolver consults. -/
structure FileItem where
  id : String
  mime_type : String
  size_bytes : Nat
  share_link : Option ShareLink
deriving DecidableEq

/-- `String.startsWith`, expressed over the character lists so that it
computes by structural recursion. -/
def strStartsWith (s p : String) : Bool := p.data.isPrefixOf s.data

/-- `file.mime_type.startsWith('image/')` in `loadFilePreview`. -/
def isImageFile (m : String) : Bool := strStartsWith m "image/"

/-- The loader-side text test of `loadFilePreview`: `text/*`,
`application/json`, `application/javascript`, `text/csv`. -/
def isTextFile (m : String) : Bool :=
  strStartsWith m "text/" || m == "application/json" ||
    m == "application/javascript" || m == "text/csv"

/-- `file.mime_type === 'application/pdf'` in `loadFilePreview`. -/
def isPDFFile (m : String) : Bool := m == "application/pdf"

/-- The loader-side video test of `loadFilePreview`. -/
def isVideoFile (m : String) : Bool :=
  strStartsWith m "video/" || m == "video/mp4"

/-- The render-side `isText` classification of `PreviewModal` (the list
used when choosing a renderer), which also lists `application/xml`,
`application/x-yaml`, `text/yaml` and `text/yml`. -/
def isText (m : String) : Bool :=
  strStartsWith m "text/" ||
    (["application/json", "application/javascript", "application/xml",
      "application/x-yaml", "text/csv", "text/yaml", "text/yml"].contains m)

/-- Gate of the fetching branch of `loadFilePreview`. -/
def previewEligible (f : FileItem) : Bool :=
  isImageFile f.mime_type || isTextFile f.mime_type ||
    isPDFFile f.mime_type || isVideoFile f.mime_type

/-- `file.share_link?.token && file.share_link?.is_active` with
JavaScript truthiness on the token string. -/
def hasPublicToken (f : FileItem) : Bool :=
  match f.share_link with
  | some sl => sl.token != "" && sl.is_active
  | none => false

/-- Default REST base URL of the client. -/
def restBaseUrl : String := "http://localhost:8080/api/v1"

/-- The `downloadUrl` chosen by `loadFilePreview`: the public
byte-serving endpoint when an active share token is present, the
authenticated per-id download endpoint otherwise. -/
def downloadUrlOf (f : FileItem) : String :=
  if hasPublicToken f then
    restBaseUrl ++ "/p/" ++ (f.share_link.map ShareLink.token).getD ""
  else
    restBaseUrl ++ "/files/" ++ f.id ++ "/download"

/-- The headers of the preview fetch: empty in a public context or when
an active share token is used, a bearer credential otherwise. -/
def fetchHeadersOf (token : Option String) (isPublic : Bool) (f : FileItem) :
    Option String :=
  if isPublic || hasPublicToken f then none
  else some ("Bearer " ++ token.getD "")

/-- The per-consumer mutable refs of `PreviewModal`, plus a counter
supplying fresh object URLs (modelled as naturals) and the id targeted
by the outstanding, non-aborted fetch (aborting or superseding the
fetch clears it, since the continuation then returns on
`signal.aborted` without effects). -/
structure PreviewState where
  currentBlobUrl : Option Nat
  currentFileId : Option String
  loadingRef : Bool
  previewUrlRef : Option Nat
  errorMsg : Option String
  hasController : Bool
  inflight : Option String
  nextUrl : Nat
deriving DecidableEq

def initialPreviewState : PreviewState :=
  { currentBlobUrl := none, currentFileId := none, loadingRef := false,
    previewUrlRef := none, errorMsg := none, hasController := false,
    inflight := none, nextUrl := 0 }

/-- Observable effects of the resolver. -/
inductive PreviewEffect
  | fetchBytes (url : String) (authHeader : Option String)
  | createUrl (u : Nat)
  | revokeUrl (u : Nat)
  | abortFetch
deriving DecidableEq

/-- The synchronous prologue of `loadFilePreview` for an open modal with
a file: the same-id no-op guard, the abort of any previous controller,
the eligibility test, the auth check, the per-kind size ceilings, and —
when all pass — the issuing of the fetch. -/
def loadFilePreviewStart (token : Option String) (isPublic : Bool) (f : FileItem)
    (s : PreviewState) : PreviewState × List PreviewEffect :=
  if s.currentFileId == some f.id && (s.loadingRef || s.previewUrlRef.isSome) then
    (s, [])
  else
    let abortEffs : List PreviewEffect :=
      if s.hasController then [.abortFetch] else []
    let s1 : PreviewState :=
      { s with hasController := true, inflight := none,
               loadingRef := true, errorMsg := none,
               currentFileId := some f.id }
    if previewEligible f then
      if !(strTruthy token) && !isPublic then
        ({ s1 with errorMsg := some "Authentication required for file preview",
                   previewUrlRef := none, loadingRef := false }, abortEffs)
      else if isTextFile f.mime_type && decide (f.size_bytes > 500000) then
        ({ s1 with errorMsg := some "Text file too large for preview (max 500KB)",
                   previewUrlRef := none, loadingRef := false }, abortEffs)
      else if isVideoFile f.mime_type && decide (f.size_bytes > 100000000) then
        ({ s1 with errorMsg := some "Video file too large for preview (max 100MB)",
                   previewUrlRef := none, loadingRef := false }, abortEffs)
      else if isPDFFile f.mime_type && decide (f.size_bytes > 50000000) then
        ({ s1 with errorMsg := some "PDF file too large for preview (max 50MB)",
                   previewUrlRef := none, loadingRef := false }, abortEffs)
      else
        ({ s1 with inflight := some f.id },
         abortEffs ++ [.fetchBytes (downloadUrlOf f) (fetchHeadersOf token isPublic f)])
    else
      ({ s1 with previewUrlRef := none, loadingRef := false }, abortEffs)

/-- Settlement of the outstanding fetch, when it has not been aborted
or superseded: on success the previous object URL (if any) is revoked,
a fresh one is created and installed; on failure the catch records the
error and nulls the preview ref, leaving `currentBlobUrl` untouched. -/
def loadFilePreviewFinish (ok : Bool) (errMsg : String) (s : PreviewState) :
    PreviewState × List PreviewEffect :=
  match s.inflight with
  | none => (s, [])
  | some _ =>
      if ok then
        let revokeEffs : List PreviewEffect :=
          match s.currentBlobUrl with
          | some u => [.revokeUrl u]
          | none => []
        let u := s.nextUrl
        ({ s with currentBlobUrl := some u, previewUrlRef := some u,
                  loadingRef := false, inflight := none, nextUrl := u + 1 },
         revokeEffs ++ [.createUrl u])
      else
        ({ s with errorMsg := some errMsg, previewUrlRef := none,
                  loadingRef := false, inflight := none }, [])

/-- The close/unmount path: revoke the current object URL if any,
abort the controller if any, reset the refs. -/
def previewCleanup (s : PreviewState) : PreviewState × List PreviewEffect :=
  let revokeEffs : List PreviewEffect :=
    match s.currentBlobUrl with
    | some u => [.revokeUrl u]
    | none => []
  let abortEffs : List PreviewEffect :=
    if s.hasController then [.abortFetch] else []
  ({ s with currentBlobUrl := none, hasController := false, inflight := none,
            previewUrlRef := none, errorMsg := none, loadingRef := false,
            currentFileId := none }, revokeEffs ++ abortEffs)

/-- One interaction with the resolver. -/
inductive PreviewOp
  | start (token : Option String) (isPublic : Bool) (f : FileItem)
  | finish (ok : Bool) (errMsg : String)
  | cleanup

def previewStep : PreviewOp → PreviewState → PreviewState × List PreviewEffect
  | .start tok pub f, s => loadFilePreviewStart tok pub f s
  | .finish ok m, s => loadFilePreviewFinish ok m s
  | .cleanup, s => previewCleanup s

/-- Run a sequence of interactions, accumulating effects. -/
def previewRun (ops : List PreviewOp) (s : PreviewState) :
    PreviewState × List PreviewEffect :=
  match ops with
  | [] => (s, [])
  | op :: rest =>
      let p1 := previewStep op s
      let p2 := previewRun rest p1.1
      (p2.1, p1.2 ++ p2.2)

/-- Number of revocations of object URL `u` in an effect list. -/
def revCount (effs : List PreviewEffect) (u : Nat) : Nat :=
  effs.count (.revokeUrl u)

/-- Number of creations of object URL `u` in an effect list. -/
def createCount (effs : List PreviewEffect) (u : Nat) : Nat :=
  effs.count (.createUrl u)

/-- Network fetches recorded in an effect list, with their URL and
authorization header. -/
def fetches (effs : List PreviewEffect) : List (String × Option String) :=
  effs.filterMap fun e =>
    match e with
    | .fetchBytes u h => some (u, h)
    | _ => none

/-- Number of network fetches recorded in an effect list. -/
def fetchCount (effs : List PreviewEffect) : Nat := (fetches effs).length

/-- Object-URL bookkeeping invariant of a resolver run: every URL below
the fresh counter was created exactly once, URLs at or above it never
appear, a created URL is unrevoked exactly while it is the current one,
and the current URL was indeed created. -/
def UrlInv (next : Nat) (cur : Option Nat) (effs : List PreviewEffect) : Prop :=
  (∀ u, createCount effs u = if u < next then 1 else 0) ∧
  (∀ u, next ≤ u → revCount effs u = 0) ∧
  (∀ u, u < next → revCount effs u = if cur = some u then 0 else 1) ∧
  (∀ u, cur = some u → u < next)

/-! ### Concrete inputs used by the claim checks -/

/-- A small PDF descriptor (file A of the supersession scenario). -/
def pdfA : FileItem :=
  { id := "a", mime_type := "application/pdf", size_bytes := 1000, share_link := none }

/-- A small image descriptor (file B of the supersession scenario). -/
def pngB : FileItem :=
  { id := "b", mime_type := "image/png", size_bytes := 1000, share_link := none }

/-- Resolve A to settlement, then resolve B to settlement. -/
def opsAB : List PreviewOp :=
  [.start (some "t") false pdfA, .finish true "",
   .start (some "t") false pngB, .finish true ""]

/-- A small image descriptor used for the same-id idempotence scenario. -/
def imgSame : FileItem :=
  { id := "s1", mime_type := "image/png", size_bytes := 2000, share_link := none }

/-- A consumer state with a loading session for file id `s1`. -/
def busyState : PreviewState :=
  { initialPreviewState with currentFileId := some "s1", loadingRef := true }

/-- A small XML descriptor within the text ceiling. -/
def xmlFile : FileItem :=
  { id := "x1", mime_type := "application/xml", size_bytes := 1000, share_link := none }

/-- A plain-text descriptor over the 500,000-byte text ceiling. -/
def bigText : FileItem :=
  { id := "t1", mime_type := "text/plain", size_bytes := 600000, share_link := none }

/-- A 10 MB PDF descriptor carrying an active public share token. -/
def sharedPdf : FileItem :=
  { id := "p1", mime_type := "application/pdf", size_bytes := 10000000,
    share_link := some { token := "sh", is_active := true } }

/-- A task mid-upload, as left by `startRealUpload` plus one progress event. -/
def taskU1 : UploadProgressItem :=
  { id := "u1", name := "a.txt", progress := 50, size := 5, status := .uploading }

/-- `move` request recognizer, used to count relocation calls. -/
def isMoveReq : UploadRequest → Bool
  | .move _ _ => true
  | _ => false

/-! ## Helper lemmas: upload task updates -/

theorem updTask_length (k : String) (f : UploadProgressItem → UploadProgressItem)
    (us : List UploadProgressItem) : (updTask k f us).length = us.length := by
  simp [updTask]

theorem updTask_getElem?_of_ne {k : String} {f : UploadProgressItem → UploadProgressItem}
    {us : List UploadProgressItem} {i : Nat} {u : UploadProgressItem}
    (h : us[i]? = some u) (hne : u.id ≠ k) :
    (updTask k f us)[i]? = some u := by
  simp [updTask, List.getElem?_map, h, hne]

theorem mem_updTask_elim {u : UploadProgressItem} {k : String}
    {f : UploadProgressItem → UploadProgressItem} {us : List UploadProgressItem}
    (hu : u ∈ updTask k f us) : ∃ w ∈ us, u = if w.id = k then f w else w := by
  simp only [updTask] at hu
  obtain ⟨w, hw, h⟩ := List.mem_map.mp hu
  exact ⟨w, hw, h.symm⟩

theorem status_error_of_mem_setUploadError {u : UploadProgressItem} {k : String}
    {us : List UploadProgressItem}
    (hu : u ∈ setUploadError k us) (hid : u.id = k) : u.status = .error := by
  obtain ⟨w, _, hcase⟩ := mem_updTask_elim (by simpa [setUploadError] using hu)
  by_cases h : w.id = k
  · simp only [if_pos h] at hcase
    rw [hcase]
  · simp only [if_neg h] at hcase
    rw [hcase] at hid
    exact absurd hid h

theorem completed_of_mem_setUploadCompleted {u : UploadProgressItem} {k : String}
    {us : List UploadProgressItem}
    (hu : u ∈ setUploadCompleted k us) (hid : u.id = k) :
    u.status = .completed ∧ u.progress = 100 := by
  obtain ⟨w, _, hcase⟩ := mem_updTask_elim (by simpa [setUploadCompleted] using hu)
  by_cases h : w.id = k
  · simp only [if_pos h] at hcase
    rw [hcase]
    exact ⟨rfl, rfl⟩
  · simp only [if_neg h] at hcase
    rw [hcase] at hid
    exact absurd hid h

theorem error100_of_mem_err_completed {u : UploadProgressItem} {k : String}
    {us : List UploadProgressItem}
    (hu : u ∈ setUploadError k (setUploadCompleted k us)) (hid : u.id = k) :
    u.status = .error ∧ u.progress = 100 := by
  obtain ⟨w, hw, hcase⟩ := mem_updTask_elim (by simpa [setUploadError] using hu)
  by_cases h : w.id = k
  · have hw2 := completed_of_mem_setUploadCompleted hw h
    simp only [if_pos h] at hcase
    rw [hcase]
    exact ⟨rfl, hw2.2⟩
  · simp only [if_neg h] at hcase
    rw [hcase] at hid
    exact absurd hid h

/-- C10: if the auth credential is absent (or empty) when a file is
uploaded, the task transitions to `error`, no network request of any
kind is issued (no upload POST, no relocation call), and every other
task is left unchanged. -/
theorem upload_no_credential_no_request
    (token folderId : Option String) (tags uid nm ms : String)
    (o : TransportOutcome) (mv : Bool) (us : List UploadProgressItem)
    (htok : strTruthy token = false) :
    (uploadFile token folderId tags uid nm o mv ms us).requests = [] ∧
    (∀ u ∈ (uploadFile token folderId tags uid nm o mv ms us).uploads,
       u.id = uid → u.status = .error) ∧
    (∀ (i : Nat) (u : UploadProgressItem), us[i]? = some u → u.id ≠ uid →
       ((uploadFile token folderId tags uid nm o mv ms us).uploads)[i]? = some u) := by
  have hred : uploadFile token folderId tags uid nm o mv ms us =
      { uploads := setUploadError uid us
        requests := []
        toasts := [.err "Authentication required for file upload"] } := by
    simp [uploadFile, htok]
  refine ⟨by rw [hred], ?_, ?_⟩
  · intro u hu hid
    rw [hred] at hu
    exact status_error_of_mem_setUploadError hu hid
  · intro i u h hne
    rw [hred]
    exact updTask_getElem?_of_ne h hne

/-- Witness for C10 at a concrete missing credential and batch. -/
theorem upload_no_credential_no_request_witness :
    strTruthy (none : Option String) = false ∧
    (uploadFile none (some "fld") "" "u1" "a.txt" (.ok (some "f")) true ""
      [taskU1]).requests = [] :=
  ⟨by decide,
   (upload_no_credential_no_request none (some "fld") "" "u1" "a.txt" ""
     (.ok (some "f")) true [taskU1] (by decide)).1⟩

/-- C9: the task progress is `Math.round((loaded/total)*100)`, equal to
the rounding of `100·loaded/total`; it is a non-negative integer, at
most 100 while `loaded` stays within `total`, monotone in the reported
byte count, and marking a task completed sets its progress to exactly
100. -/
theorem upload_progress_monotone (l1 l2 total : Nat)
    (ht : 0 < total) (h12 : l1 ≤ l2) (h2 : l2 ≤ total) :
    progressOf l2 total = Int.floor (100 * (l2 : ℚ) / (total : ℚ) + 1/2) ∧
    0 ≤ progressOf l1 total ∧
    progressOf l1 total ≤ progressOf l2 total ∧
    progressOf l2 total ≤ 100 ∧
    (∀ (uid : String) (us : List UploadProgressItem)
       (u : UploadProgressItem), u ∈ setUploadCompleted uid us → u.id = uid →
       u.progress = 100 ∧ u.status = .completed) := by
  have htq : (0 : ℚ) < (total : ℚ) := by exact_mod_cast ht
  refine ⟨?_, ?_, ?_, ?_, ?_⟩
  · unfold progressOf jsRound
    congr 1
    ring
  · unfold progressOf jsRound
    apply Int.floor_nonneg.mpr
    positivity
  · unfold progressOf jsRound
    apply Int.floor_le_floor
    have hc : (l1 : ℚ) ≤ (l2 : ℚ) := by exact_mod_cast h12
    gcongr
  · unfold progressOf jsRound
    have hle : (l2 : ℚ) / (total : ℚ) ≤ 1 := by
      rw [div_le_one htq]
      exact_mod_cast h2
    have hlt : Int.floor ((l2 : ℚ) / (total : ℚ) * 100 + 1/2) < 101 := by
      apply Int.floor_lt.mpr
      push_cast
      nlinarith
    omega
  · intro uid us u hu hid
    have h := completed_of_mem_setUploadCompleted hu hid
    exact ⟨h.2, h.1⟩

/-- Witness for C9 at `loaded` 50 then 75 of a 100-byte file. -/
theorem upload_progress_monotone_witness :
    0 < 100 ∧ 50 ≤ 75 ∧ 75 ≤ 100 ∧
    progressOf 50 100 ≤ progressOf 75 100 :=
  ⟨by decide, by decide, by decide,
   (upload_progress_monotone 50 75 100 (by decide) (by decide) (by decide)).2.2.1⟩

/-- C1 as stated fails on the code: with a destination folder, a
successful upload and a failing relocation call, the task does not stay
`completed` — the thrown relocation error is caught by the shared
handler, which flips the task to `error`. -/
theorem upload_move_failure_counterexample :
    ((uploadFile (some "tok") (some "fld") "" "u1" "a.txt" (.ok (some "fid1"))
        false "Forbidden" [taskU1]).uploads.map fun u => u.status) =
      [UploadStatus.error] ∧
    [UploadStatus.error] ≠ [UploadStatus.completed] := by
  exact ⟨by decide, by decide⟩

/-- C1 amended: when the follow-up relocation call fails after a
successful upload to a non-root destination, the task — first marked
completed at 100 — is flipped to `error` (its progress stays 100); the
relocation failure is surfaced to the caller as a distinct error toast
naming the move, and exactly one relocation request is issued (no
automatic retry). -/
theorem upload_move_failure_flips_task
    (token folderId fid : Option String) (tags uid nm merr : String)
    (us : List UploadProgressItem)
    (htok : strTruthy token = true) (hfld : strTruthy folderId = true)
    (hfid : strTruthy fid = true) :
    (∀ u ∈ (uploadFile token folderId tags uid nm (.ok fid) false merr us).uploads,
       u.id = uid → u.status = .error ∧ u.progress = 100) ∧
    ((uploadFile token folderId tags uid nm (.ok fid) false merr us).requests.filter
       isMoveReq) = [.move (fid.getD "") (folderId.getD "")] ∧
    (uploadFile token folderId tags uid nm (.ok fid) false merr us).toasts =
      [.err ("Failed to upload \"" ++ nm ++
        "\": Failed to move file to folder: " ++ merr)] := by
  have hred : uploadFile token folderId tags uid nm (.ok fid) false merr us =
      { uploads := setUploadError uid (setUploadCompleted uid us)
        requests := [.post (if tags != "" then some tags else none),
                     .move (fid.getD "") (folderId.getD "")]
        toasts := [.err ("Failed to upload \"" ++ nm ++
          "\": Failed to move file to folder: " ++ merr)] } := by
    simp [uploadFile, htok, hfld, hfid]
  refine ⟨?_, ?_, by rw [hred]⟩
  · intro u hu hid
    rw [hred] at hu
    exact error100_of_mem_err_completed hu hid
  · rw [hred]
    simp [isMoveReq, List.filter]

/-- Witness for the amended C1 at a concrete failing relocation. -/
theorem upload_move_failure_flips_task_witness :
    strTruthy (some "tok") = true ∧ strTruthy (some "fld") = true ∧
    strTruthy (some "fid1") = true ∧
    ((uploadFile (some "tok") (some "fld") "" "u1" "a.txt" (.ok (some "fid1"))
       false "Forbidden" [taskU1]).requests.filter isMoveReq) =
      [.move "fid1" "fld"] :=
  ⟨by decide, by decide, by decide,
   (upload_move_failure_flips_task (some "tok") (some "fld") (some "fid1")
     "" "u1" "a.txt" "Forbidden" [taskU1]
     (by decide) (by decide) (by decide)).2.1⟩

/-- C7 as stated fails on the code: `xhr.timeout = 60000` is wired into
the upload transport, so a server settlement that would arrive after
60 s loses to the client-side timeout, the promise rejects with
`Upload timeout`, and the task leaves `uploading` for `error`. -/
theorem upload_timeout_fires_counterexample :
    settleUpload (some 70000) (.ok (some "x")) = .timedOut ∧
    ((uploadFile (some "tok") none "" "u1" "f.bin"
        (settleUpload (some 70000) (.ok (some "x"))) true "" [taskU1]).uploads.map
        fun u => u.status) = [UploadStatus.error] ∧
    (uploadFile (some "tok") none "" "u1" "f.bin"
        (settleUpload (some 70000) (.ok (some "x"))) true "" [taskU1]).toasts =
      [.err "Failed to upload \"f.bin\": Upload timeout"] := by
  exact ⟨by decide, by decide, by decide⟩

/-- C7 amended: a 60,000 ms client-side timeout is wired into the
upload transport; a server settlement arriving within it is taken as
is, a later (or absent) settlement is replaced by the `Upload timeout`
rejection, and a timed-out task transitions to `error`. -/
theorem upload_timeout_wired (o : TransportOutcome) (t : Nat)
    (token folderId : Option String) (tags uid nm ms : String) (mv : Bool)
    (us : List UploadProgressItem) (htok : strTruthy token = true) :
    uploadTimeoutMs = 60000 ∧
    (t < uploadTimeoutMs → settleUpload (some t) o = o) ∧
    (uploadTimeoutMs ≤ t → settleUpload (some t) o = .timedOut) ∧
    settleUpload none o = .timedOut ∧
    transportErrMsg .timedOut = some "Upload timeout" ∧
    (∀ u ∈ (uploadFile token folderId tags uid nm .timedOut mv ms us).uploads,
       u.id = uid → u.status = .error) := by
  refine ⟨rfl, ?_, ?_, rfl, rfl, ?_⟩
  · intro h
    simp [settleUpload, h]
  · intro h
    simp [settleUpload, Nat.not_lt.mpr h]
  · intro u hu hid
    have hred : (uploadFile token folderId tags uid nm .timedOut mv ms us).uploads =
        setUploadError uid us := by
      simp [uploadFile, htok]
    rw [hred] at hu
    exact status_error_of_mem_setUploadError hu hid

/-- Witness for the amended C7 at a concrete late settlement. -/
theorem upload_timeout_wired_witness :
    (60000 : Nat) ≤ 70000 ∧ strTruthy (some "tok") = true ∧
    settleUpload (some 70000) (.ok (some "x")) = .timedOut :=
  ⟨by decide, by decide,
   (upload_timeout_wired (.ok (some "x")) 70000 (some "tok") none "" "u1"
     "f.bin" "" true [taskU1] (by decide)).2.2.1 (by decide)⟩

theorem startRealUpload_length (gen : Nat → String) :
    ∀ (files : List LocalFile) (k : Nat) (us : List UploadProgressItem),
      (startRealUpload gen k files us).length = us.length + files.length := by
  intro files
  induction files with
  | nil =>
      intro k us
      simp [startRealUpload]
  | cons f rest ih =>
      intro k us
      rw [startRealUpload, ih]
      simp
      omega

theorem uploadFile_uploads_shape (token folderId : Option String)
    (tags uid nm ms : String) (o : TransportOutcome) (mv : Bool)
    (us : List UploadProgressItem) :
    (uploadFile token folderId tags uid nm o mv ms us).uploads = setUploadError uid us ∨
    (uploadFile token folderId tags uid nm o mv ms us).uploads = setUploadCompleted uid us ∨
    (uploadFile token folderId tags uid nm o mv ms us).uploads =
      setUploadError uid (setUploadCompleted uid us) := by
  by_cases htok : strTruthy token
  · cases o with
    | ok fid =>
        by_cases hroot : (!(strTruthy folderId) || !(strTruthy fid)) = true
        · refine Or.inr (Or.inl ?_)
          simp [uploadFile, htok, hroot]
        · cases mv with
          | true =>
              refine Or.inr (Or.inl ?_)
              simp [uploadFile, htok]
              simp at hroot
              simp [hroot]
          | false =>
              refine Or.inr (Or.inr ?_)
              simp [uploadFile, htok]
              simp at hroot
              simp [hroot]
    | badJson => exact Or.inl (by simp [uploadFile, htok])
    | httpFail msg => exact Or.inl (by simp [uploadFile, htok])
    | netError => exact Or.inl (by simp [uploadFile, htok])
    | timedOut => exact Or.inl (by simp [uploadFile, htok])
  · exact Or.inl (by simp [uploadFile, htok])

/-- C8: the batch loop creates exactly one `uploading` task per local
file; every status or progress update rewrites only the task with the
matching id, so any other task is left unchanged by a whole
`uploadFile` run; and the targeted task itself ends in `completed` or
`error`. -/
theorem upload_batch_independent
    (gen : Nat → String) (files : List LocalFile)
    (token folderId : Option String) (tags uid nm ms : String)
    (o : TransportOutcome) (mv : Bool) (us : List UploadProgressItem)
    (i : Nat) (u : UploadProgressItem)
    (h : us[i]? = some u) (hne : u.id ≠ uid) :
    (startRealUpload gen 0 files []).length = files.length ∧
    ((uploadFile token folderId tags uid nm o mv ms us).uploads)[i]? = some u ∧
    (∀ w ∈ (uploadFile token folderId tags uid nm o mv ms us).uploads,
       w.id = uid → w.status = .completed ∨ w.status = .error) := by
  refine ⟨by simpa using startRealUpload_length gen files 0 [], ?_, ?_⟩
  · rcases uploadFile_uploads_shape token folderId tags uid nm ms o mv us with
      hs | hs | hs <;> rw [hs]
    · exact updTask_getElem?_of_ne h hne
    · exact updTask_getElem?_of_ne h hne
    · exact updTask_getElem?_of_ne (updTask_getElem?_of_ne h hne) hne
  · intro w hw hid
    rcases uploadFile_uploads_shape token folderId tags uid nm ms o mv us with
      hs | hs | hs <;> rw [hs] at hw
    · exact Or.inr (status_error_of_mem_setUploadError hw hid)
    · exact Or.inl (completed_of_mem_setUploadCompleted hw hid).1
    · exact Or.inr (error100_of_mem_err_completed hw hid).1

/-- Witness for C8 at a two-file batch and a failing sibling task. -/
theorem upload_batch_independent_witness :
    ([({ id := "u2", name := "b.txt", progress := 10, size := 9,
         status := .uploading } : UploadProgressItem)])[0]? =
      some ({ id := "u2", name := "b.txt", progress := 10, size := 9,
              status := .uploading } : UploadProgressItem) ∧
    "u2" ≠ "u1" ∧
    (startRealUpload (fun n => "upload-" ++ toString n) 0
      [⟨"a.txt", 5⟩, ⟨"b.txt", 9⟩] []).length = 2 :=
  ⟨by decide, by decide,
   (upload_batch_independent (fun n => "upload-" ++ toString n)
     [⟨"a.txt", 5⟩, ⟨"b.txt", 9⟩] (some "tok") none "" "u1" "a.txt" ""
     .netError true
     [{ id := "u2", name := "b.txt", progress := 10, size := 9,
        status := .uploading }] 0
     { id := "u2", name := "b.txt", progress := 10, size := 9,
       status := .uploading }
     (by decide) (by decide)).1⟩

/-! ## Helper lemmas: object-URL accounting of the preview resolver -/

theorem revCount_append (a b : List PreviewEffect) (u : Nat) :
    revCount (a ++ b) u = revCount a u + revCount b u := by
  simp [revCount, List.count_append]

theorem createCount_append (a b : List PreviewEffect) (u : Nat) :
    createCount (a ++ b) u = createCount a u + createCount b u := by
  simp [createCount, List.count_append]

theorem counts_abortEffs (b : Bool) (u : Nat) :
    revCount (if b then [PreviewEffect.abortFetch] else []) u = 0 ∧
    createCount (if b then [PreviewEffect.abortFetch] else []) u = 0 := by
  cases b <;> simp [revCount, createCount]

theorem counts_abortFetchEffs (b : Bool) (url : String) (h : Option String) (u : Nat) :
    revCount ((if b then [PreviewEffect.abortFetch] else []) ++
      [PreviewEffect.fetchBytes url h]) u = 0 ∧
    createCount ((if b then [PreviewEffect.abortFetch] else []) ++
      [PreviewEffect.fetchBytes url h]) u = 0 := by
  cases b <;> simp [revCount, createCount]

theorem loadFilePreviewStart_counts (tok : Option String) (pub : Bool)
    (f : FileItem) (s : PreviewState) :
    (loadFilePreviewStart tok pub f s).1.nextUrl = s.nextUrl ∧
    (loadFilePreviewStart tok pub f s).1.currentBlobUrl = s.currentBlobUrl ∧
    (∀ u, revCount (loadFilePreviewStart tok pub f s).2 u = 0) ∧
    (∀ u, createCount (loadFilePreviewStart tok pub f s).2 u = 0) := by
  unfold loadFilePreviewStart
  repeat' split
  all_goals refine ⟨rfl, rfl, fun u => ?_, fun u => ?_⟩ <;>
    simp [revCount, createCount]

theorem revCount_single_revoke (n u : Nat) :
    revCount [PreviewEffect.revokeUrl n] u = if u = n then 1 else 0 := by
  by_cases h : u = n <;> simp [revCount, h]

theorem createCount_single_create (n u : Nat) :
    createCount [PreviewEffect.createUrl n] u = if u = n then 1 else 0 := by
  by_cases h : u = n <;> simp [createCount, h]

theorem revCount_single_create (n u : Nat) :
    revCount [PreviewEffect.createUrl n] u = 0 := by
  simp [revCount]

theorem createCount_single_revoke (n u : Nat) :
    createCount [PreviewEffect.revokeUrl n] u = 0 := by
  simp [createCount]

theorem loadFilePreviewFinish_stale (ok : Bool) (m : String) (s : PreviewState)
    (h : s.inflight = none) : loadFilePreviewFinish ok m s = (s, []) := by
  unfold loadFilePreviewFinish
  rw [h]

theorem loadFilePreviewFinish_fail (m : String) (s : PreviewState) (fid : String)
    (h : s.inflight = some fid) :
    loadFilePreviewFinish false m s =
      ({ s with errorMsg := some m, previewUrlRef := none,
                loadingRef := false, inflight := none }, []) := by
  unfold loadFilePreviewFinish
  rw [h]
  simp

theorem loadFilePreviewFinish_ok_fresh (m : String) (s : PreviewState) (fid : String)
    (hin : s.inflight = some fid) (hcur : s.currentBlobUrl = none) :
    loadFilePreviewFinish true m s =
      ({ s with currentBlobUrl := some s.nextUrl, previewUrlRef := some s.nextUrl,
                loadingRef := false, inflight := none, nextUrl := s.nextUrl + 1 },
       [.createUrl s.nextUrl]) := by
  unfold loadFilePreviewFinish
  rw [hin]
  simp [hcur]

theorem loadFilePreviewFinish_ok_super (m : String) (s : PreviewState)
    (fid : String) (u0 : Nat)
    (hin : s.inflight = some fid) (hcur : s.currentBlobUrl = some u0) :
    loadFilePreviewFinish true m s =
      ({ s with currentBlobUrl := some s.nextUrl, previewUrlRef := some s.nextUrl,
                loadingRef := false, inflight := none, nextUrl := s.nextUrl + 1 },
       [.revokeUrl u0] ++ [.createUrl s.nextUrl]) := by
  unfold loadFilePreviewFinish
  rw [hin]
  simp [hcur]

theorem previewCleanup_fresh (s : PreviewState) (hcur : s.currentBlobUrl = none) :
    previewCleanup s =
      ({ s with currentBlobUrl := none, hasController := false, inflight := none,
                previewUrlRef := none, errorMsg := none, loadingRef := false,
                currentFileId := none },
       if s.hasController then [.abortFetch] else []) := by
  unfold previewCleanup
  simp [hcur]

theorem previewCleanup_live (s : PreviewState) (u0 : Nat)
    (hcur : s.currentBlobUrl = some u0) :
    previewCleanup s =
      ({ s with currentBlobUrl := none, hasController := false, inflight := none,
                previewUrlRef := none, errorMsg := none, loadingRef := false,
                currentFileId := none },
       [.revokeUrl u0] ++ (if s.hasController then [.abortFetch] else [])) := by
  unfold previewCleanup
  simp [hcur]

theorem urlInv_start (tok : Option String) (pub : Bool) (f : FileItem)
    (s : PreviewState) (effs : List PreviewEffect)
    (h : UrlInv s.nextUrl s.currentBlobUrl effs) :
    UrlInv (loadFilePreviewStart tok pub f s).1.nextUrl
      (loadFilePreviewStart tok pub f s).1.currentBlobUrl
      (effs ++ (loadFilePreviewStart tok pub f s).2) := by
  obtain ⟨h1, h2, h3, h4⟩ := h
  obtain ⟨e1, e2, e3, e4⟩ := loadFilePreviewStart_counts tok pub f s
  rw [e1, e2]
  refine ⟨fun u => ?_, fun u hu => ?_, fun u hu => ?_, h4⟩
  · rw [createCount_append, e4 u, Nat.add_zero]
    exact h1 u
  · rw [revCount_append, e3 u, Nat.add_zero]
    exact h2 u hu
  · rw [revCount_append, e3 u, Nat.add_zero]
    exact h3 u hu

theorem urlInv_finish (ok : Bool) (m : String) (s : PreviewState)
    (effs : List PreviewEffect)
    (h : UrlInv s.nextUrl s.currentBlobUrl effs) :
    UrlInv (loadFilePreviewFinish ok m s).1.nextUrl
      (loadFilePreviewFinish ok m s).1.currentBlobUrl
      (effs ++ (loadFilePreviewFinish ok m s).2) := by
  obtain ⟨h1, h2, h3, h4⟩ := h
  rcases hin : s.inflight with _ | fid
  · rw [loadFilePreviewFinish_stale ok m s hin]
    simpa using ⟨h1, h2, h3, h4⟩
  · cases ok with
    | false =>
        rw [loadFilePreviewFinish_fail m s fid hin]
        simpa using ⟨h1, h2, h3, h4⟩
    | true =>
        rcases hcur : s.currentBlobUrl with _ | u0
        · rw [loadFilePreviewFinish_ok_fresh m s fid hin hcur]
          dsimp only
          refine ⟨fun u => ?_, fun u hu => ?_, fun u hu => ?_, fun u hu => ?_⟩
          · rw [createCount_append, h1 u, createCount_single_create]
            split_ifs <;> omega
          · rw [revCount_append, revCount_single_create, Nat.add_zero]
            exact h2 u (by omega)
          · rw [revCount_append, revCount_single_create, Nat.add_zero]
            by_cases he : u = s.nextUrl
            · rw [he, h2 s.nextUrl (Nat.le_refl s.nextUrl)]
              simp
            · have hu2 : u < s.nextUrl := by omega
              rw [h3 u hu2, hcur]
              have hne : ¬((some s.nextUrl : Option Nat) = some u) := by
                simp only [Option.some.injEq]
                exact fun hh => he hh.symm
              simp [hne]
          · simp only [Option.some.injEq] at hu
            omega
        · have hu0 : u0 < s.nextUrl := h4 u0 hcur
          rw [loadFilePreviewFinish_ok_super m s fid u0 hin hcur]
          dsimp only
          refine ⟨fun u => ?_, fun u hu => ?_, fun u hu => ?_, fun u hu => ?_⟩
          · rw [createCount_append, createCount_append, h1 u,
              createCount_single_revoke, createCount_single_create]
            split_ifs <;> omega
          · rw [revCount_append, revCount_append, revCount_single_revoke,
              revCount_single_create, h2 u (by omega)]
            have hne : ¬(u = u0) := by omega
            simp [hne]
          · rw [revCount_append, revCount_append, revCount_single_revoke,
              revCount_single_create]
            by_cases he : u = s.nextUrl
            · rw [he, h2 s.nextUrl (Nat.le_refl s.nextUrl)]
              have hne : ¬(s.nextUrl = u0) := by omega
              simp [hne]
            · have hu2 : u < s.nextUrl := by omega
              rw [h3 u hu2, hcur]
              have hne2 : ¬((some s.nextUrl : Option Nat) = some u) := by
                simp only [Option.some.injEq]
                exact fun hh => he hh.symm
              by_cases he0 : u = u0
              · have hne3 : ¬(s.nextUrl = u0) := by omega
                rw [he0]
                simp [hne3]
              · have hne0 : ¬((some u0 : Option Nat) = some u) := by
                  simp only [Option.some.injEq]
                  exact fun hh => he0 hh.symm
                simp [hne2, hne0, he0]
          · simp only [Option.some.injEq] at hu
            omega

theorem urlInv_cleanup (s : PreviewState) (effs : List PreviewEffect)
    (h : UrlInv s.nextUrl s.currentBlobUrl effs) :
    UrlInv (previewCleanup s).1.nextUrl
      (previewCleanup s).1.currentBlobUrl
      (effs ++ (previewCleanup s).2) := by
  obtain ⟨h1, h2, h3, h4⟩ := h
  rcases hcur : s.currentBlobUrl with _ | u0
  · rw [previewCleanup_fresh s hcur]
    dsimp only
    refine ⟨fun u => ?_, fun u hu => ?_, fun u hu => ?_, fun u hu => by simp at hu⟩
    · rw [createCount_append, (counts_abortEffs s.hasController u).2, Nat.add_zero]
      exact h1 u
    · rw [revCount_append, (counts_abortEffs s.hasController u).1, Nat.add_zero]
      exact h2 u hu
    · rw [revCount_append, (counts_abortEffs s.hasController u).1, Nat.add_zero,
        h3 u hu, hcur]
      try simp
  · have hu0 : u0 < s.nextUrl := h4 u0 hcur
    rw [previewCleanup_live s u0 hcur]
    dsimp only
    refine ⟨fun u => ?_, fun u hu => ?_, fun u hu => ?_, fun u hu => by simp at hu⟩
    · rw [createCount_append, createCount_append, h1 u,
        createCount_single_revoke, (counts_abortEffs s.hasController u).2]
      omega
    · rw [revCount_append, revCount_append, revCount_single_revoke,
        (counts_abortEffs s.hasController u).1, h2 u hu]
      have hne : ¬(u = u0) := by omega
      simp [hne]
    · rw [revCount_append, revCount_append, revCount_single_revoke,
        (counts_abortEffs s.hasController u).1, h3 u hu, hcur]
      by_cases he0 : u = u0
      · rw [he0]
        simp
      · have hne0 : ¬((some u0 : Option Nat) = some u) := by
          simp only [Option.some.injEq]
          exact fun hh => he0 hh.symm
        simp [hne0, he0]

theorem urlInv_previewStep (op : PreviewOp) (s : PreviewState)
    (effs : List PreviewEffect)
    (h : UrlInv s.nextUrl s.currentBlobUrl effs) :
    UrlInv (previewStep op s).1.nextUrl (previewStep op s).1.currentBlobUrl
      (effs ++ (previewStep op s).2) := by
  cases op with
  | start tok pub f => exact urlInv_start tok pub f s effs h
  | finish ok m => exact urlInv_finish ok m s effs h
  | cleanup => exact urlInv_cleanup s effs h

theorem urlInv_previewRun (ops : List PreviewOp) :
    ∀ (s : PreviewState) (effs : List PreviewEffect),
      UrlInv s.nextUrl s.currentBlobUrl effs →
      UrlInv (previewRun ops s).1.nextUrl (previewRun ops s).1.currentBlobUrl
        (effs ++ (previewRun ops s).2) := by
  induction ops with
  | nil =>
      intro s effs h
      simpa [previewRun] using h
  | cons op rest ih =>
      intro s effs h
      have h1 := urlInv_previewStep op s effs h
      have h2 := ih (previewStep op s).1 (effs ++ (previewStep op s).2) h1
      simp only [previewRun]
      simpa [List.append_assoc] using h2

theorem urlInv_initial :
    UrlInv initialPreviewState.nextUrl initialPreviewState.currentBlobUrl [] := by
  refine ⟨fun u => ?_, fun u _ => rfl, fun u hu => ?_, fun u hu => ?_⟩
  · simp [initialPreviewState, createCount]
  · simp [initialPreviewState] at hu
  · simp [initialPreviewState] at hu

theorem fetches_abortEffs (b : Bool) :
    fetches (if b then [PreviewEffect.abortFetch] else []) = [] := by
  cases b <;> simp [fetches]

theorem fetches_abort_fetch (b : Bool) (url : String) (h : Option String) :
    fetches ((if b then [PreviewEffect.abortFetch] else []) ++
      [PreviewEffect.fetchBytes url h]) = [(url, h)] := by
  cases b <;> simp [fetches]

/-- C2: every object URL the resolver creates is revoked at most once
along any interaction sequence (never a double revoke); after the
consumer has closed or unmounted (no current URL), every created URL
has been revoked exactly once (never a leak); the live URL is never
the revoked one; and in the resolve-A-then-resolve-B scenario, A's URL
is revoked exactly once while B's is the single live object URL. -/
theorem preview_url_revoked_exactly_once (ops : List PreviewOp) (u : Nat) :
    revCount (previewRun ops initialPreviewState).2 u ≤ 1 ∧
    ((previewRun ops initialPreviewState).1.currentBlobUrl = none →
      u < (previewRun ops initialPreviewState).1.nextUrl →
      revCount (previewRun ops initialPreviewState).2 u = 1) ∧
    ((previewRun ops initialPreviewState).1.currentBlobUrl = some u →
      revCount (previewRun ops initialPreviewState).2 u = 0) ∧
    revCount (previewRun opsAB initialPreviewState).2 0 = 1 ∧
    revCount (previewRun opsAB initialPreviewState).2 1 = 0 ∧
    createCount (previewRun opsAB initialPreviewState).2 0 = 1 ∧
    createCount (previewRun opsAB initialPreviewState).2 1 = 1 ∧
    (previewRun opsAB initialPreviewState).1.currentBlobUrl = some 1 ∧
    revCount (previewRun (opsAB ++ [PreviewOp.cleanup]) initialPreviewState).2 0 = 1 ∧
    revCount (previewRun (opsAB ++ [PreviewOp.cleanup]) initialPreviewState).2 1 = 1 := by
  obtain ⟨h1, h2, h3, h4⟩ :=
    urlInv_previewRun ops initialPreviewState [] urlInv_initial
  simp only [List.nil_append] at h1 h2 h3
  refine ⟨?_, ?_, ?_, by decide, by decide, by decide, by decide, by decide,
    by decide, by decide⟩
  · by_cases hlt : u < (previewRun ops initialPreviewState).1.nextUrl
    · rw [h3 u hlt]
      split_ifs <;> omega
    · rw [h2 u (by omega)]
      omega
  · intro hnone hlt
    rw [h3 u hlt, hnone]
    simp
  · intro hsome
    have hlt := h4 u hsome
    rw [h3 u hlt, hsome]
    simp

/-- Witness for C2 on the closed trace: after resolving A then B and
closing, A's URL (URL 0) was created and revoked exactly once. -/
theorem preview_url_revoked_exactly_once_witness :
    (previewRun (opsAB ++ [PreviewOp.cleanup]) initialPreviewState).1.currentBlobUrl
      = none ∧
    0 < (previewRun (opsAB ++ [PreviewOp.cleanup]) initialPreviewState).1.nextUrl ∧
    revCount (previewRun (opsAB ++ [PreviewOp.cleanup]) initialPreviewState).2 0 = 1 :=
  ⟨by decide, by decide,
   (preview_url_revoked_exactly_once (opsAB ++ [PreviewOp.cleanup]) 0).2.1
     (by decide) (by decide)⟩

/-- C4: resolving again for the same file id while a session for that
id is loading or already resolved is a strict no-op — state unchanged
and no effects, hence no duplicate network fetch; concretely, starting
the same resolve twice performs exactly one fetch. -/
theorem preview_same_id_resolve_noop
    (tok : Option String) (pub : Bool) (f : FileItem) (s : PreviewState)
    (hid : s.currentFileId = some f.id)
    (hbusy : s.loadingRef = true ∨ s.previewUrlRef.isSome = true) :
    loadFilePreviewStart tok pub f s = (s, []) ∧
    fetchCount (previewRun
      [.start (some "t") false imgSame, .start (some "t") false imgSame]
      initialPreviewState).2 = 1 := by
  constructor
  · have hcond : (s.currentFileId == some f.id &&
        (s.loadingRef || s.previewUrlRef.isSome)) = true := by
      rcases hbusy with hb | hb <;> simp [hid, hb]
    unfold loadFilePreviewStart
    simp [hcond]
  · decide

/-- Witness for C4 with a loading session for the same id. -/
theorem preview_same_id_resolve_noop_witness :
    busyState.currentFileId = some imgSame.id ∧
    loadFilePreviewStart (some "t") false imgSame busyState = (busyState, []) :=
  ⟨by decide,
   (preview_same_id_resolve_noop (some "t") false imgSame busyState
     (by decide) (Or.inl (by decide))).1⟩

/-- C3: the spec (and the component's own render-side classification)
treats `application/xml` as previewable text, but the loader's text
test omits it, so a small `application/xml` file with a credential is
not fetched at all and ends with no preview session and no error — the
loader contradicts the renderer's classification. -/
theorem preview_xml_inconsistent :
    isText "application/xml" = true ∧
    isTextFile "application/xml" = false ∧
    previewEligible xmlFile = false ∧
    (loadFilePreviewStart (some "tok") false xmlFile initialPreviewState).2 = [] ∧
    (loadFilePreviewStart (some "tok") false xmlFile
      initialPreviewState).1.previewUrlRef = none ∧
    (loadFilePreviewStart (some "tok") false xmlFile
      initialPreviewState).1.inflight = none := by
  refine ⟨by decide, by decide, by decide, by decide, by decide, by decide⟩

/-- C5 as stated fails on the code: the credential check runs before
the ceiling check, so an oversized text file previewed with no
credential in a non-public context yields the auth error, not
`TooLarge` (still with no fetch). -/
theorem preview_too_large_counterexample :
    bigText.size_bytes > 500000 ∧ isTextFile bigText.mime_type = true ∧
    fetches (loadFilePreviewStart none false bigText initialPreviewState).2 = [] ∧
    (loadFilePreviewStart none false bigText initialPreviewState).1.errorMsg =
      some "Authentication required for file preview" ∧
    (loadFilePreviewStart none false bigText initialPreviewState).1.errorMsg ≠
      some "Text file too large for preview (max 500KB)" := by
  refine ⟨by decide, by decide, by decide, by decide, by decide⟩

/-- C5 amended: given the auth precondition (credential present or
public context), a previewable file over its kind's ceiling — text
over 500,000, video over 100,000,000, PDF over 50,000,000 bytes —
short-circuits into the too-large error state with no network fetch,
while images fetch regardless of size. -/
theorem preview_too_large_no_fetch
    (tok : Option String) (pub : Bool) (f : FileItem) (s : PreviewState)
    (hguard : (s.currentFileId == some f.id &&
      (s.loadingRef || s.previewUrlRef.isSome)) = false)
    (hauth : strTruthy tok = true ∨ pub = true) :
    (isTextFile f.mime_type = true → f.size_bytes > 500000 →
      (loadFilePreviewStart tok pub f s).1.errorMsg =
        some "Text file too large for preview (max 500KB)" ∧
      fetches (loadFilePreviewStart tok pub f s).2 = []) ∧
    (isVideoFile f.mime_type = true → isTextFile f.mime_type = false →
      f.size_bytes > 100000000 →
      (loadFilePreviewStart tok pub f s).1.errorMsg =
        some "Video file too large for preview (max 100MB)" ∧
      fetches (loadFilePreviewStart tok pub f s).2 = []) ∧
    (isPDFFile f.mime_type = true → isTextFile f.mime_type = false →
      isVideoFile f.mime_type = false → f.size_bytes > 50000000 →
      (loadFilePreviewStart tok pub f s).1.errorMsg =
        some "PDF file too large for preview (max 50MB)" ∧
      fetches (loadFilePreviewStart tok pub f s).2 = []) ∧
    (isImageFile f.mime_type = true → isTextFile f.mime_type = false →
      isVideoFile f.mime_type = false → isPDFFile f.mime_type = false →
      fetchCount (loadFilePreviewStart tok pub f s).2 = 1) := by
  have hauthF : (!(strTruthy tok) && !pub) = false := by
    rcases hauth with ha | ha <;> simp [ha]
  refine ⟨?_, ?_, ?_, ?_⟩
  · intro htx hsz
    unfold loadFilePreviewStart
    simp [hguard, previewEligible, htx, hauthF, hsz, fetches_abortEffs]
  · intro hv htx hsz
    unfold loadFilePreviewStart
    simp [hguard, previewEligible, hv, htx, hauthF, hsz, fetches_abortEffs]
  · intro hp htx hv hsz
    unfold loadFilePreviewStart
    simp [hguard, previewEligible, hp, htx, hv, hauthF, hsz, fetches_abortEffs]
  · intro hi htx hv hp
    unfold loadFilePreviewStart
    simp [hguard, previewEligible, hi, htx, hv, hp, hauthF, fetchCount,
      fetches_abort_fetch]

/-- Witness for the amended C5 at a 600,000-byte text file with a
credential present. -/
theorem preview_too_large_no_fetch_witness :
    strTruthy (some "tok") = true ∧ isTextFile bigText.mime_type = true ∧
    bigText.size_bytes > 500000 ∧
    fetches (loadFilePreviewStart (some "tok") false bigText
      initialPreviewState).2 = [] :=
  ⟨by decide, by decide, by decide,
   ((preview_too_large_no_fetch (some "tok") false bigText initialPreviewState
      (by decide) (Or.inl (by decide))).1 (by decide) (by decide)).2⟩

/-- C6 as stated fails on the code: the credential check runs before
the endpoint choice, so a file carrying an active public share token,
previewed with no credential in a non-public context, is not fetched
from the public endpoint (or anywhere) — resolution fails with the
auth error instead of proceeding unauthenticated. -/
theorem preview_endpoint_counterexample :
    hasPublicToken sharedPdf = true ∧
    fetches (loadFilePreviewStart none false sharedPdf initialPreviewState).2 = [] ∧
    (loadFilePreviewStart none false sharedPdf initialPreviewState).1.errorMsg =
      some "Authentication required for file preview" := by
  refine ⟨by decide, by decide, by decide⟩

/-- C6 amended: once resolution proceeds to the fetch (previewable
kind, within ceilings, credential present or public context), a file
with an active share token is fetched from the public `/p/{token}`
endpoint with no Authorization header, and a file without one, in a
non-public context, is fetched from the authenticated
`/files/{id}/download` endpoint with the bearer credential. -/
theorem preview_endpoint_selection
    (tok : Option String) (pub : Bool) (f : FileItem) (s : PreviewState)
    (hguard : (s.currentFileId == some f.id &&
      (s.loadingRef || s.previewUrlRef.isSome)) = false)
    (hel : previewEligible f = true)
    (hauth : strTruthy tok = true ∨ pub = true)
    (hs1 : (isTextFile f.mime_type && decide (f.size_bytes > 500000)) = false)
    (hs2 : (isVideoFile f.mime_type && decide (f.size_bytes > 100000000)) = false)
    (hs3 : (isPDFFile f.mime_type && decide (f.size_bytes > 50000000)) = false) :
    (hasPublicToken f = true →
      fetches (loadFilePreviewStart tok pub f s).2 =
        [(restBaseUrl ++ "/p/" ++ (f.share_link.map ShareLink.token).getD "",
          none)]) ∧
    (hasPublicToken f = false → pub = false →
      fetches (loadFilePreviewStart tok pub f s).2 =
        [(restBaseUrl ++ "/files/" ++ f.id ++ "/download",
          some ("Bearer " ++ tok.getD ""))]) := by
  have hauthF : (!(strTruthy tok) && !pub) = false := by
    rcases hauth with ha | ha <;> simp [ha]
  constructor
  · intro htk
    unfold loadFilePreviewStart downloadUrlOf fetchHeadersOf
    simp [hguard, hel, hauthF, hs1, hs2, hs3, htk, fetches_abort_fetch]
  · intro htk hpub
    have htok : strTruthy tok = true := by
      rcases hauth with ha | ha
      · exact ha
      · rw [ha] at hpub
        exact absurd hpub (by simp)
    unfold loadFilePreviewStart downloadUrlOf fetchHeadersOf
    simp [hguard, hel, htok, hs1, hs2, hs3, htk, hpub, fetches_abort_fetch]

/-- Witness for the amended C6 at a shared 10 MB PDF previewed with a
credential present: the public endpoint is used with no header. -/
theorem preview_endpoint_selection_witness :
    hasPublicToken sharedPdf = true ∧
    fetches (loadFilePreviewStart (some "tok") false sharedPdf
      initialPreviewState).2 =
      [(restBaseUrl ++ "/p/" ++
        (sharedPdf.share_link.map ShareLink.token).getD "", none)] :=
  ⟨by decide,
   (preview_endpoint_selection (some "tok") false sharedPdf initialPreviewState
     (by decide) (by decide) (Or.inl (by decide)) (by decide) (by decide)
     (by decide)).1 (by decide)⟩
